import Mathlib

/-!
Shallow embedding of the registration core of `src/App.tsx`: the field
validator `validateField`, the submit handler `handleSubmit`, the delete
handler `handleDeleteUser`, and the startup load from the persisted
`registeredUsers` slot.  JavaScript strings are modelled as Lean `String`
(a list of characters); regular-expression tests are modelled by explicit
character-class predicates over `String.data`.
-/

set_option maxRecDepth 4000

/-- The set matched by the JavaScript regex class `\s` (and removed from both
ends by `String.prototype.trim`): ASCII whitespace, NBSP, the Unicode space
separators, line/paragraph separators and the BOM. -/
def jsWhitespace (c : Char) : Bool :=
  [' ', '\t', '\n', '\r', '\x0b', '\x0c', '\u00A0', '\u1680',
   '\u2000', '\u2001', '\u2002', '\u2003', '\u2004', '\u2005', '\u2006',
   '\u2007', '\u2008', '\u2009', '\u200A', '\u2028', '\u2029', '\u202F',
   '\u205F', '\u3000', '\uFEFF'].contains c

/-- The regex class `[a-z]`. -/
def isAsciiLower (c : Char) : Bool := 'a' ≤ c && c ≤ 'z'

/-- The regex class `[A-Z]`. -/
def isAsciiUpper (c : Char) : Bool := 'A' ≤ c && c ≤ 'Z'

/-- The regex class `\d`, i.e. `[0-9]`. -/
def isAsciiDigit (c : Char) : Bool := '0' ≤ c && c ≤ '9'

/-- The regex class `[a-zA-Z]`. -/
def isAsciiLetter (c : Char) : Bool := isAsciiLower c || isAsciiUpper c

/-- The regex class `[@$!%*?&]` from the password special-character rule. -/
def isSpecialChar (c : Char) : Bool :=
  c == '@' || c == '$' || c == '!' || c == '%' || c == '*' || c == '?' || c == '&'

/-- `String.prototype.trim`: drop `jsWhitespace` characters from both ends. -/
def trimChars (cs : List Char) : List Char :=
  ((cs.dropWhile jsWhitespace).reverse.dropWhile jsWhitespace).reverse

/-- `/^[a-zA-Z\s]+$/.test value`: the whole string is one or more
letters-or-whitespace characters. -/
def fullNameMatches (cs : List Char) : Bool :=
  !cs.isEmpty && cs.all (fun c => isAsciiLetter c || jsWhitespace c)

/-- The regex class `[^\s@]` from the email rule. -/
def okEmailChar (c : Char) : Bool := !jsWhitespace c && c != '@'

/-- `/^[^\s@]+@[^\s@]+\.[^\s@]+$/.test value`.  Because `[^\s@]` excludes
`'@'`, a match forces exactly one `'@'` in the string: the local part is
everything before it and must be non-empty over `[^\s@]`; the remainder must
be non-empty over `[^\s@]` and contain a `'.'` at an interior position (so
that both `[^\s@]+` groups around the dot are non-empty). -/
def emailMatches (cs : List Char) : Bool :=
  let before := cs.takeWhile (fun c => c != '@')
  match cs.drop before.length with
  | '@' :: after =>
      !before.isEmpty && before.all okEmailChar &&
      !after.isEmpty && after.all okEmailChar &&
      ((after.drop 1).dropLast.contains '.')
  | _ => false

/-- The regex class `[\d\s-()]` from the phone rule (the hyphen is literal). -/
def phoneClassChar (c : Char) : Bool :=
  isAsciiDigit c || jsWhitespace c || c == '-' || c == '(' || c == ')'

/-- `/^\+?[\d\s-()]+$/.test value`: an optional leading `'+'` followed by one
or more characters of `[\d\s-()]` (`'+'` is not in the class, so the optional
`'+'` can only be the first character). -/
def phoneMatches (cs : List Char) : Bool :=
  match cs with
  | '+' :: rest => !rest.isEmpty && rest.all phoneClassChar
  | _ => !cs.isEmpty && cs.all phoneClassChar

/-- `value.replace(/\D/g, '').length`: the number of ASCII digits. -/
def digitCount (cs : List Char) : Nat := (cs.filter isAsciiDigit).length

/-- Numeric value of an ASCII digit character. -/
def digitVal (c : Char) : Nat := c.toNat - '0'.toNat

/-- Days in a month, with the Gregorian leap-year rule, as used by the
ISO-date validity check of `Date` parsing. -/
def daysInMonth (y m : Nat) : Nat :=
  if m == 2 then (if y % 4 == 0 && (y % 100 != 0 || y % 400 == 0) then 29 else 28)
  else if m == 4 || m == 6 || m == 9 || m == 11 then 30
  else 31

/-- `new Date(value).getFullYear()`, restricted to the `YYYY-MM-DD` strings
produced by the date input (the only format the form feeds to `Date`): `some`
of the year when the string is a calendar-valid ISO date, `none` when `Date`
yields an Invalid Date (whose `getFullYear()` is `NaN`). -/
def jsDateYear (s : String) : Option Int :=
  match s.data with
  | [y1, y2, y3, y4, s1, m1, m2, s2, d1, d2] =>
      if s1 == '-' && s2 == '-' &&
         [y1, y2, y3, y4, m1, m2, d1, d2].all isAsciiDigit then
        let y := 1000 * digitVal y1 + 100 * digitVal y2 + 10 * digitVal y3 + digitVal y4
        let m := 10 * digitVal m1 + digitVal m2
        let d := 10 * digitVal d1 + digitVal d2
        if 1 ≤ m && m ≤ 12 && 1 ≤ d && d ≤ daysInMonth y m then some (y : Int)
        else none
      else none
  | _ => none

/-- The six field names of the form, `keyof FormData`. -/
inductive FieldName where
  | fullName
  | email
  | password
  | confirmPassword
  | phone
  | dateOfBirth
deriving DecidableEq, Repr

/-- The transient form state `FormData` (lines 13–20 of `App.tsx`). -/
structure FormData where
  fullName : String
  email : String
  password : String
  confirmPassword : String
  phone : String
  dateOfBirth : String
deriving DecidableEq, Repr

/-- `validateField` (lines 55–100 of `App.tsx`).  `todayYear` is
`new Date().getFullYear()` at the moment of the call; `form` is the `formData`
closed over by the component (the `confirmPassword` case reads
`formData.password`).  Returns `some msg` for the first failing rule and
`none` (`undefined`) when the field passes.

In the `dateOfBirth` case, when `new Date value` is an Invalid Date its
`getFullYear()` is `NaN`, the computed `age` is `NaN`, and both comparisons
`age < 13` and `age > 120` are false, so control falls through to
`return undefined`: the `none` branch of the `match` encodes exactly that. -/
def validateField (todayYear : Int) (form : FormData) :
    FieldName → String → Option String
  | .fullName, value =>
      if trimChars value.data = [] then some "Full name is required"
      else if (trimChars value.data).length < 2 then some "Name must be at least 2 characters"
      else if !fullNameMatches value.data then some "Name can only contain letters"
      else none
  | .email, value =>
      if trimChars value.data = [] then some "Email is required"
      else if !emailMatches value.data then some "Invalid email format"
      else none
  | .password, value =>
      if value = "" then some "Password is required"
      else if value.data.length < 8 then some "Password must be at least 8 characters"
      else if !value.data.any isAsciiLower then some "Password must contain a lowercase letter"
      else if !value.data.any isAsciiUpper then some "Password must contain an uppercase letter"
      else if !value.data.any isAsciiDigit then some "Password must contain a number"
      else if !value.data.any isSpecialChar then some "Password must contain a special character"
      else none
  | .confirmPassword, value =>
      if value = "" then some "Please confirm your password"
      else if value ≠ form.password then some "Passwords do not match"
      else none
  | .phone, value =>
      if trimChars value.data = [] then some "Phone number is required"
      else if !phoneMatches value.data then some "Invalid phone number format"
      else if digitCount value.data < 10 then some "Phone number must be at least 10 digits"
      else none
  | .dateOfBirth, value =>
      if value = "" then some "Date of birth is required"
      else
        match jsDateYear value with
        | none => none
        | some y =>
            let age := todayYear - y
            if age < 13 then some "You must be at least 13 years old"
            else if age > 120 then some "Please enter a valid date"
            else none

/-- The persisted record `UserData` (lines 4–11 of `App.tsx`): exactly six
string fields — identifier, full name, email, phone, date of birth and the
registration timestamp.  The record has no password field. -/
structure UserData where
  id : String
  fullName : String
  email : String
  phone : String
  dateOfBirth : String
  registeredAt : String
deriving DecidableEq, Repr

/-- The `registeredUsers` slot of `localStorage` as the app observes it:
`absent` when `getItem` returns `null`; `invalid` when it returns a string
that `JSON.parse` rejects (throwing a `SyntaxError`); `stored us` when it
holds the string `JSON.stringify` produced from the user list `us` — the only
strings the app itself ever writes (the theorem
`parseUsers_serializeUsers` below shows this string-level round trip is
faithful at the JSON level). -/
inductive Slot where
  | absent : Slot
  | invalid : Slot
  | stored : List UserData → Slot
deriving DecidableEq, Repr

/-- The component state the claims are about: the in-memory `users` list and
the persisted slot it is mirrored to. -/
structure AppState where
  users : List UserData
  slot : Slot
deriving DecidableEq, Repr

/-- The `useEffect` initial load (lines 48–53 of `App.tsx`):

    const storedUsers = localStorage.getItem('registeredUsers');
    if (storedUsers) { setUsers(JSON.parse(storedUsers)); }

When the slot is absent, `getItem` returns `null`, the guard is false and the
list stays `[]`.  When the slot holds an unparsable string, `JSON.parse`
throws and there is no try/catch around it, so the exception propagates out of
the effect: modelled as `Except.error`.  When it holds a serialized list, that
list becomes the state. -/
def initialLoad : Slot → Except String (List UserData)
  | Slot.absent => Except.ok []
  | Slot.invalid => Except.error "SyntaxError: JSON.parse on unparsable slot contents"
  | Slot.stored us => Except.ok us

/-- The ambient quantities `handleSubmit` samples from the environment:
`new Date().getFullYear()` used by the date validator, `Date.now()` used for
the new record's id, and `new Date().toISOString()` used for `registeredAt`. -/
structure SubmitCtx where
  todayYear : Int
  nowMs : Nat
  nowIso : String
deriving DecidableEq, Repr

/-- The current value of each form field, `formData[key]`. -/
def fieldValue (f : FormData) : FieldName → String
  | .fullName => f.fullName
  | .email => f.email
  | .password => f.password
  | .confirmPassword => f.confirmPassword
  | .phone => f.phone
  | .dateOfBirth => f.dateOfBirth

/-- The `Object.keys(formData)` iteration order: the six field names in
declaration order. -/
def formKeys : List FieldName :=
  [FieldName.fullName, FieldName.email, FieldName.password,
   FieldName.confirmPassword, FieldName.phone, FieldName.dateOfBirth]

/-- The `hasErrors` flag computed by `handleSubmit` (lines 122–131 of
`App.tsx`): some field's `validateField` on the current form value returns an
error. -/
def hasErrors (todayYear : Int) (f : FormData) : Bool :=
  formKeys.any (fun k => (validateField todayYear f k (fieldValue f k)).isSome)

/-- The `newUser` record constructed on a successful submit (lines 145–152 of
`App.tsx`): `Date.now().toString()` as id, the four raw form values verbatim,
and the ISO timestamp.  No password field exists to be stored. -/
def mkNewUser (ctx : SubmitCtx) (f : FormData) : UserData :=
  { id := toString ctx.nowMs
    fullName := f.fullName
    email := f.email
    phone := f.phone
    dateOfBirth := f.dateOfBirth
    registeredAt := ctx.nowIso }

/-- `handleSubmit` (lines 119–170 of `App.tsx`), restricted to the store: it
validates every field of `formData`; if any reports an error it returns
before touching `users` or `localStorage`; otherwise it appends `newUser` to
the end of the list, sets it, and persists the serialized updated list.
(The resets of `formData`/`errors`/`touched` and the success banner are
view-only state outside this model.) -/
def handleSubmit (ctx : SubmitCtx) (st : AppState) (f : FormData) : AppState :=
  if hasErrors ctx.todayYear f then st
  else
    let updatedUsers := st.users ++ [mkNewUser ctx f]
    { users := updatedUsers, slot := Slot.stored updatedUsers }

/-- `handleDeleteUser` (lines 172–176 of `App.tsx`): filter out the records
whose `id` equals the argument, set the list, persist it. -/
def handleDeleteUser (st : AppState) (uid : String) : AppState :=
  let updatedUsers := st.users.filter (fun u => u.id != uid)
  { users := updatedUsers, slot := Slot.stored updatedUsers }

/-- JSON values, as far as the persisted representation needs them: strings,
arrays and objects. -/
inductive Json where
  | str : String → Json
  | arr : List Json → Json
  | obj : List (String × Json) → Json

/-- `JSON.stringify` of one `UserData`, at the level of the JSON value it
denotes: an object with the six string fields. -/
def serializeUser (u : UserData) : Json :=
  Json.obj [("id", Json.str u.id), ("fullName", Json.str u.fullName),
            ("email", Json.str u.email), ("phone", Json.str u.phone),
            ("dateOfBirth", Json.str u.dateOfBirth),
            ("registeredAt", Json.str u.registeredAt)]

/-- `JSON.stringify` of the user list: a JSON array of the serialized
records. -/
def serializeUsers (us : List UserData) : Json :=
  Json.arr (us.map serializeUser)

/-- Read a string field of a JSON object. -/
def getStr (fs : List (String × Json)) (k : String) : Option String :=
  match fs.lookup k with
  | some (Json.str s) => some s
  | _ => none

/-- Reconstruct one `UserData` from its JSON value. -/
def parseUser : Json → Option UserData
  | Json.obj fs =>
      match getStr fs "id", getStr fs "fullName", getStr fs "email",
            getStr fs "phone", getStr fs "dateOfBirth",
            getStr fs "registeredAt" with
      | some i, some n, some e, some p, some d, some r =>
          some ⟨i, n, e, p, d, r⟩
      | _, _, _, _, _, _ => none
  | _ => none

/-- Reconstruct a user list from a list of JSON values, element-wise. -/
def parseUserList : List Json → Option (List UserData)
  | [] => some []
  | j :: js =>
      match parseUser j, parseUserList js with
      | some u, some us => some (u :: us)
      | _, _ => none

/-- Reconstruct the user list from the JSON value of the persisted slot. -/
def parseUsers : Json → Option (List UserData)
  | Json.arr js => parseUserList js
  | _ => none

/-- An empty form, the component's initial `formData`. -/
def emptyForm : FormData := ⟨"", "", "", "", "", ""⟩

/-- The valid submission from the spec's scenario list. -/
def validForm : FormData :=
  ⟨"Jo", "a@b.com", "Abcdef1!", "Abcdef1!", "1234567890", "2000-01-01"⟩

/-- The same submission with a different (still valid) password. -/
def validForm2 : FormData :=
  ⟨"Jo", "a@b.com", "Xyzwvu2$", "Xyzwvu2$", "1234567890", "2000-01-01"⟩

/-- A valid submission whose full name carries surrounding whitespace. -/
def wsForm : FormData :=
  ⟨" Jo ", "a@b.com", "Abcdef1!", "Abcdef1!", "1234567890", "2000-01-01"⟩

/-- The spec's failing scenario: password with no uppercase letter. -/
def invalidForm : FormData :=
  ⟨"Jo", "a@b.com", "abcdefgh", "abcdefgh", "1234567890", "2000-01-01"⟩

/-- A concrete submission context. -/
def exCtx : SubmitCtx := ⟨2026, 1760140800000, "2026-10-11T00:00:00.000Z"⟩

/-- A concrete already-registered user. -/
def exUser : UserData :=
  ⟨"1", "Ann Bee", "ann@example.com", "1234567890", "1990-05-05",
   "2026-01-01T00:00:00.000Z"⟩

/-- A concrete app state with one registered user, slot in sync. -/
def exState : AppState := ⟨[exUser], Slot.stored [exUser]⟩

/-- C1: on startup, an absent `registeredUsers` slot yields the empty initial
list without error, but a slot whose contents are not parsable as JSON makes
`JSON.parse` throw a SyntaxError that propagates out of the `useEffect`
initializer (there is no try/catch), contradicting the claim that the load
never crashes and falls back to the empty list. -/
theorem initialLoad_absent_ok_invalid_throws :
    initialLoad Slot.absent = Except.ok ([] : List UserData) ∧
    initialLoad Slot.invalid =
      Except.error "SyntaxError: JSON.parse on unparsable slot contents" :=
  ⟨rfl, rfl⟩

/-- C2 counterexample: the non-empty string `"x"` does not parse as a date,
yet `validateField` on `dateOfBirth` returns no error — the `NaN` age makes
both numeric comparisons false, so the value passes, refuting the claim that
every non-empty unparsable date is rejected. -/
theorem validateField_dob_unparsable_passes :
    ("x" : String) ≠ "" ∧ jsDateYear "x" = none ∧
    validateField 2026 emptyForm FieldName.dateOfBirth "x" = none :=
  ⟨by decide, rfl, rfl⟩

/-- C2 amended: for every non-empty string that does not parse as a date,
`validateField` on `dateOfBirth` returns no error (the value passes): the
`NaN` age comparisons are both false and control falls through to
`undefined`. -/
theorem validateField_dob_unparsable_no_error (t : Int) (f : FormData)
    (v : String) (h1 : v ≠ "") (h2 : jsDateYear v = none) :
    validateField t f FieldName.dateOfBirth v = none := by
  simp [validateField, h1, h2]

/-- C2 amended, witness: the concrete unparsable date `"nope"`. -/
theorem validateField_dob_unparsable_no_error_witness :
    ("nope" : String) ≠ "" ∧ jsDateYear "nope" = none ∧
    validateField 2026 emptyForm FieldName.dateOfBirth "nope" = none :=
  ⟨by decide, rfl,
   validateField_dob_unparsable_no_error 2026 emptyForm "nope" (by decide) rfl⟩

/-- C4: `validateField` on `password` succeeds iff the value has length ≥ 8
and contains at least one lowercase letter, one uppercase letter, one digit
and one character of `@$!%*?&`. -/
theorem validateField_password_iff (t : Int) (f : FormData) (v : String) :
    validateField t f FieldName.password v = none ↔
      8 ≤ v.data.length ∧ v.data.any isAsciiLower = true ∧
      v.data.any isAsciiUpper = true ∧ v.data.any isAsciiDigit = true ∧
      v.data.any isSpecialChar = true := by
  by_cases h0 : v = ""
  · subst h0
    simp only [validateField, if_pos rfl]
    constructor
    · intro h; cases h
    · intro h; exact absurd h.1 (by decide)
  · simp only [validateField, if_neg h0]
    split_ifs with h1 h2 h3 h4 h5 <;> simp_all

theorem trimChars_nil : trimChars [] = [] := rfl

/-- C5: `validateField` on `fullName` fails iff the trimmed value is empty,
or the trimmed value is shorter than 2 characters, or the value contains a
character that is neither an ASCII letter nor whitespace. -/
theorem validateField_fullName_iff (t : Int) (f : FormData) (v : String) :
    (validateField t f FieldName.fullName v).isSome = true ↔
      trimChars v.data = [] ∨ (trimChars v.data).length < 2 ∨
      v.data.any (fun c => !(isAsciiLetter c || jsWhitespace c)) = true := by
  simp only [validateField]
  split_ifs with h1 h2 h3 <;>
    simp_all [fullNameMatches, trimChars_nil, List.isEmpty_iff]
  rcases h3 with h3 | h3
  · exact absurd (by rw [h3]; exact trimChars_nil) h1
  · exact Or.inr h3

/-- C6: `validateField` on `confirmPassword` succeeds iff the value is
non-empty and equals the current password field of the form. -/
theorem validateField_confirmPassword_iff (t : Int) (f : FormData) (v : String) :
    validateField t f FieldName.confirmPassword v = none ↔
      v ≠ "" ∧ v = f.password := by
  simp only [validateField]
  split_ifs with h1 h2 <;> simp_all

theorem hasErrors_eq_false_iff (t : Int) (f : FormData) :
    hasErrors t f = false ↔
      (validateField t f FieldName.fullName f.fullName = none ∧
       validateField t f FieldName.email f.email = none ∧
       validateField t f FieldName.password f.password = none ∧
       validateField t f FieldName.confirmPassword f.confirmPassword = none ∧
       validateField t f FieldName.phone f.phone = none ∧
       validateField t f FieldName.dateOfBirth f.dateOfBirth = none) := by
  simp [hasErrors, formKeys, fieldValue, Option.isSome_iff_ne_none]

/-- C3: a record is appended iff all six fields pass `validateField` on the
current form values; on any failure both the in-memory list and the persisted
slot are unchanged, and on success exactly one record is appended at the end,
preserving the existing order and persisting the same appended list. -/
theorem handleSubmit_append_iff (ctx : SubmitCtx) (st : AppState) (f : FormData) :
    ((validateField ctx.todayYear f FieldName.fullName f.fullName = none ∧
      validateField ctx.todayYear f FieldName.email f.email = none ∧
      validateField ctx.todayYear f FieldName.password f.password = none ∧
      validateField ctx.todayYear f FieldName.confirmPassword f.confirmPassword = none ∧
      validateField ctx.todayYear f FieldName.phone f.phone = none ∧
      validateField ctx.todayYear f FieldName.dateOfBirth f.dateOfBirth = none) →
        (handleSubmit ctx st f).users = st.users ++ [mkNewUser ctx f] ∧
        (handleSubmit ctx st f).slot = Slot.stored (st.users ++ [mkNewUser ctx f])) ∧
    (¬(validateField ctx.todayYear f FieldName.fullName f.fullName = none ∧
       validateField ctx.todayYear f FieldName.email f.email = none ∧
       validateField ctx.todayYear f FieldName.password f.password = none ∧
       validateField ctx.todayYear f FieldName.confirmPassword f.confirmPassword = none ∧
       validateField ctx.todayYear f FieldName.phone f.phone = none ∧
       validateField ctx.todayYear f FieldName.dateOfBirth f.dateOfBirth = none) →
        handleSubmit ctx st f = st) := by
  constructor
  · intro h
    have hb : hasErrors ctx.todayYear f = false :=
      (hasErrors_eq_false_iff ctx.todayYear f).2 h
    simp [handleSubmit, hb]
  · intro h
    have hb : hasErrors ctx.todayYear f = true := by
      cases hb : hasErrors ctx.todayYear f with
      | false => exact absurd ((hasErrors_eq_false_iff ctx.todayYear f).1 hb) h
      | true => rfl
    simp [handleSubmit, hb]

/-- C3 witness: the spec's valid scenario appends its record; the
no-uppercase-password scenario leaves the state untouched. -/
theorem handleSubmit_append_iff_witness :
    (handleSubmit exCtx exState validForm).users =
      exState.users ++ [mkNewUser exCtx validForm] ∧
    handleSubmit exCtx exState invalidForm = exState := by
  constructor
  · exact ((handleSubmit_append_iff exCtx exState validForm).1 (by decide)).1
  · exact (handleSubmit_append_iff exCtx exState invalidForm).2 (by decide)

/-- C7: deleting an id twice gives the same state as deleting it once, and
deleting an id that no record carries leaves the user list unchanged. -/
theorem handleDeleteUser_idem (st : AppState) (uid : String) :
    handleDeleteUser (handleDeleteUser st uid) uid = handleDeleteUser st uid ∧
    ((∀ u ∈ st.users, u.id ≠ uid) → (handleDeleteUser st uid).users = st.users) := by
  constructor
  · simp [handleDeleteUser, List.filter_filter]
  · intro h
    simp only [handleDeleteUser]
    exact List.filter_eq_self.2 (fun u hu => by simpa using h u hu)

/-- C7 witness: deleting the absent id `"2"` from the one-user state twice
equals deleting it once, and leaves the list unchanged. -/
theorem handleDeleteUser_idem_witness :
    handleDeleteUser (handleDeleteUser exState "2") "2" =
      handleDeleteUser exState "2" ∧
    (handleDeleteUser exState "2").users = exState.users :=
  ⟨(handleDeleteUser_idem exState "2").1,
   (handleDeleteUser_idem exState "2").2 (by decide)⟩

theorem parseUser_serializeUser (u : UserData) :
    parseUser (serializeUser u) = some u := rfl

theorem parseUsers_serializeUsers (us : List UserData) :
    parseUsers (serializeUsers us) = some us := by
  have h : ∀ vs : List UserData, parseUserList (vs.map serializeUser) = some vs := by
    intro vs
    induction vs with
    | nil => rfl
    | cons u rest ih => simp [parseUserList, parseUser_serializeUser, ih]
  simpa [parseUsers, serializeUsers] using h us

/-- C8: after a successful submission, the slot holds the updated list, whose
JSON serialization parses back to the very same list, which contains the
appended record. -/
theorem submit_persist_roundTrip (ctx : SubmitCtx) (st : AppState)
    (f : FormData) (h : hasErrors ctx.todayYear f = false) :
    (handleSubmit ctx st f).slot = Slot.stored (st.users ++ [mkNewUser ctx f]) ∧
    parseUsers (serializeUsers (st.users ++ [mkNewUser ctx f])) =
      some (st.users ++ [mkNewUser ctx f]) ∧
    mkNewUser ctx f ∈ st.users ++ [mkNewUser ctx f] :=
  ⟨by simp [handleSubmit, h], parseUsers_serializeUsers _, by simp⟩

/-- C8 witness: the valid scenario, starting from the one-user state. -/
theorem submit_persist_roundTrip_witness :
    (handleSubmit exCtx exState validForm).slot =
      Slot.stored (exState.users ++ [mkNewUser exCtx validForm]) ∧
    parseUsers (serializeUsers (exState.users ++ [mkNewUser exCtx validForm])) =
      some (exState.users ++ [mkNewUser exCtx validForm]) ∧
    mkNewUser exCtx validForm ∈ exState.users ++ [mkNewUser exCtx validForm] :=
  submit_persist_roundTrip exCtx exState validForm (by decide)

/-- C9: the persisted record is built only from the four non-password inputs
and the ambient clock (the `UserData` structure has no password field), so two
valid submissions that agree on fullName, email, phone and dateOfBirth and
differ only in password/confirmPassword append records equal in all stored
fields except the time-derived `id` and `registeredAt`. -/
theorem submit_password_noninterference (ctx ctx' : SubmitCtx)
    (st st' : AppState) (f f' : FormData)
    (hn : f'.fullName = f.fullName) (he : f'.email = f.email)
    (hp : f'.phone = f.phone) (hd : f'.dateOfBirth = f.dateOfBirth)
    (hv : hasErrors ctx.todayYear f = false)
    (hv' : hasErrors ctx'.todayYear f' = false) :
    (handleSubmit ctx st f).users = st.users ++ [mkNewUser ctx f] ∧
    (handleSubmit ctx' st' f').users = st'.users ++ [mkNewUser ctx' f'] ∧
    (mkNewUser ctx f).fullName = (mkNewUser ctx' f').fullName ∧
    (mkNewUser ctx f).email = (mkNewUser ctx' f').email ∧
    (mkNewUser ctx f).phone = (mkNewUser ctx' f').phone ∧
    (mkNewUser ctx f).dateOfBirth = (mkNewUser ctx' f').dateOfBirth := by
  refine ⟨by simp [handleSubmit, hv], by simp [handleSubmit, hv'], ?_, ?_, ?_, ?_⟩ <;>
    simp [mkNewUser, hn, he, hp, hd]

/-- C9 witness: the valid scenario submitted with two different valid
passwords yields records with identical stored fields. -/
theorem submit_password_noninterference_witness :
    (handleSubmit exCtx exState validForm).users =
      exState.users ++ [mkNewUser exCtx validForm] ∧
    (handleSubmit exCtx exState validForm2).users =
      exState.users ++ [mkNewUser exCtx validForm2] ∧
    (mkNewUser exCtx validForm).fullName = (mkNewUser exCtx validForm2).fullName ∧
    (mkNewUser exCtx validForm).email = (mkNewUser exCtx validForm2).email ∧
    (mkNewUser exCtx validForm).phone = (mkNewUser exCtx validForm2).phone ∧
    (mkNewUser exCtx validForm).dateOfBirth = (mkNewUser exCtx validForm2).dateOfBirth :=
  submit_password_noninterference exCtx exCtx exState exState validForm validForm2
    rfl rfl rfl rfl (by decide) (by decide)

/-- C10: a successful submission stores the four string inputs verbatim — no
trimming or normalization happens between `formData` and the appended
`UserData`. -/
theorem submit_stores_raw_inputs (ctx : SubmitCtx) (st : AppState)
    (f : FormData) (hv : hasErrors ctx.todayYear f = false) :
    (handleSubmit ctx st f).users =
      st.users ++ [{ id := toString ctx.nowMs, fullName := f.fullName,
                     email := f.email, phone := f.phone,
                     dateOfBirth := f.dateOfBirth,
                     registeredAt := ctx.nowIso }] := by
  simp [handleSubmit, hv, mkNewUser]

/-- C10 witness: the full name `" Jo "` passes validation (its trim has
length 2) yet is persisted with the surrounding whitespace intact. -/
theorem submit_stores_raw_inputs_witness :
    hasErrors 2026 wsForm = false ∧
    trimChars wsForm.fullName.data ≠ wsForm.fullName.data ∧
    (handleSubmit exCtx exState wsForm).users =
      exState.users ++ [{ id := toString exCtx.nowMs, fullName := " Jo ",
                          email := "a@b.com", phone := "1234567890",
                          dateOfBirth := "2000-01-01",
                          registeredAt := "2026-10-11T00:00:00.000Z" }] :=
  ⟨by decide, by decide,
   submit_stores_raw_inputs exCtx exState wsForm (by decide)⟩

/-- C4 witness: the spec's example password `"Abcdef1!"` satisfies all five
conditions and passes. -/
theorem validateField_password_iff_witness :
    validateField 2026 emptyForm FieldName.password "Abcdef1!" = none :=
  (validateField_password_iff 2026 emptyForm "Abcdef1!").2 (by decide)

/-- C5 witness: the one-letter name `"A"` trims to length 1 and fails. -/
theorem validateField_fullName_iff_witness :
    (validateField 2026 emptyForm FieldName.fullName "A").isSome = true :=
  (validateField_fullName_iff 2026 emptyForm "A").2 (by decide)

/-- C6 witness: a confirm value equal to the form's password passes. -/
theorem validateField_confirmPassword_iff_witness :
    validateField 2026 validForm FieldName.confirmPassword "Abcdef1!" = none :=
  (validateField_confirmPassword_iff 2026 validForm "Abcdef1!").2 (by decide)
